import Mathlib

/-!
Shallow embedding of `cedar-policy-validator/src/validation_result.rs`:
the validation outcome model of the Cedar policy validator.  Rust `Vec`
becomes `List`, `Option` stays `Option`, owned `String`s stay `String`.
The `#[error(...)]` attributes of `thiserror` are embedded as explicit
`message` functions producing the rendered text.
-/

namespace CedarValidation

/-- Modelled from the spec: `PolicyID` comes from the external
`cedar_policy_core` crate (not under the validated sources); the spec
describes it only as a policy identifier with a textual rendering, so we
model it as a wrapper around that rendered identifier string. -/
structure PolicyID where
  render : String
deriving DecidableEq, Repr

/-- Modelled from the spec: `SourceInfo` comes from the external parser
crate; the spec describes it only as an opaque span into the policy
source, so we model it as a pair of offsets.  No claim inspects its
contents. -/
structure SourceInfo where
  spanStart : Nat
  spanEnd : Nat
deriving DecidableEq, Repr

/-- Modelled from the spec: `TypeErrorKind` is owned by the external type
checker and is opaque to this core; the only fact used here is that it
carries its own message, to which `ValidationErrorKind::TypeError`
delegates transparently. -/
structure TypeErrorKind where
  message : String
deriving DecidableEq, Repr

/-- Modelled from the spec: `TypeWarningKind` is owned by the external
type checker and is opaque to this core; the only fact used here is that
it carries its own message, to which `ValidationWarningKind::TypeWarning`
delegates transparently. -/
structure TypeWarningKind where
  message : String
deriving DecidableEq, Repr

/-- Details about an unrecognized entity type error
(`UnrecognizedEntityType` struct). -/
structure UnrecognizedEntityType where
  actual_entity_type : String
  suggested_entity_type : Option String
deriving DecidableEq, Repr

/-- Details about an unrecognized action id error
(`UnrecognizedActionId` struct). -/
structure UnrecognizedActionId where
  actual_action_id : String
  suggested_action_id : Option String
deriving DecidableEq, Repr

/-- Details about an invalid action application error
(`InvalidActionApplication` struct). -/
structure InvalidActionApplication where
  would_in_fix_principal : Bool
  would_in_fix_resource : Bool
deriving DecidableEq, Repr

/-- Details about an unspecified entity error (`UnspecifiedEntity`
struct). -/
structure UnspecifiedEntity where
  entity_id : String
deriving DecidableEq, Repr

/-- `ValidationErrorKind`: the closed sum of fatal diagnostic kinds. -/
inductive ValidationErrorKind where
  | UnrecognizedEntityType (d : UnrecognizedEntityType)
  | UnrecognizedActionId (d : UnrecognizedActionId)
  | InvalidActionApplication (d : InvalidActionApplication)
  | TypeError (t : TypeErrorKind)
  | UnspecifiedEntity (d : UnspecifiedEntity)
deriving DecidableEq, Repr

/-- Rendering of each `ValidationErrorKind` variant, translated from the
`#[error(...)]` attributes on the enum in the source. -/
def ValidationErrorKind.message : ValidationErrorKind → String
  | .UnrecognizedEntityType d =>
      "unrecognized entity type `" ++ d.actual_entity_type ++ "`" ++
        (match d.suggested_entity_type with
          | some s => ", did you mean `" ++ s ++ "`?"
          | none => "")
  | .UnrecognizedActionId d =>
      "unrecognized action `" ++ d.actual_action_id ++ "`" ++
        (match d.suggested_action_id with
          | some s => ", did you mean `" ++ s ++ "`?"
          | none => "")
  | .InvalidActionApplication d =>
      "unable to find an applicable action given the policy head constraints" ++
        (if d.would_in_fix_principal then
          ". Note: Try replacing `==` with `in` in the principal clause"
        else "") ++
        (if d.would_in_fix_resource then
          ". Note: Try replacing `==` with `in` in the resource clause"
        else "")
  | .TypeError t => t.message
  | .UnspecifiedEntity d =>
      "unspecified entity with eid `" ++ d.entity_id ++
        "`. Unspecified entities cannot be used in policies"

/-- Factory `ValidationErrorKind::unrecognized_entity_type`. -/
def ValidationErrorKind.unrecognized_entity_type
    (actual_entity_type : String) (suggested_entity_type : Option String) :
    ValidationErrorKind :=
  .UnrecognizedEntityType ⟨actual_entity_type, suggested_entity_type⟩

/-- Factory `ValidationErrorKind::unrecognized_action_id`. -/
def ValidationErrorKind.unrecognized_action_id
    (actual_action_id : String) (suggested_action_id : Option String) :
    ValidationErrorKind :=
  .UnrecognizedActionId ⟨actual_action_id, suggested_action_id⟩

/-- Factory `ValidationErrorKind::invalid_action_application`. -/
def ValidationErrorKind.invalid_action_application
    (would_in_fix_principal would_in_fix_resource : Bool) :
    ValidationErrorKind :=
  .InvalidActionApplication ⟨would_in_fix_principal, would_in_fix_resource⟩

/-- Factory `ValidationErrorKind::type_error`. -/
def ValidationErrorKind.type_error (t : TypeErrorKind) : ValidationErrorKind :=
  .TypeError t

/-- Factory `ValidationErrorKind::unspecified_entity`. -/
def ValidationErrorKind.unspecified_entity (entity_id : String) :
    ValidationErrorKind :=
  .UnspecifiedEntity ⟨entity_id⟩

/-- `SourceLocation`: a policy identifier together with an optional span
into the policy source. -/
structure SourceLocation where
  policy_id : PolicyID
  source_info : Option SourceInfo
deriving DecidableEq, Repr

/-- `SourceLocation::new`. -/
def SourceLocation.new (policy_id : PolicyID) (source_info : Option SourceInfo) :
    SourceLocation :=
  ⟨policy_id, source_info⟩

/-- `SourceLocation::into_source_info`. -/
def SourceLocation.into_source_info (l : SourceLocation) : Option SourceInfo :=
  l.source_info

/-- `ValidationError`: a fatal diagnostic, pairing a source location with
an error kind. -/
structure ValidationError where
  location : SourceLocation
  error_kind : ValidationErrorKind
deriving DecidableEq, Repr

/-- `ValidationError::with_policy_id`. -/
def ValidationError.with_policy_id (id : PolicyID)
    (source_info : Option SourceInfo) (error_kind : ValidationErrorKind) :
    ValidationError :=
  { error_kind := error_kind, location := SourceLocation.new id source_info }

/-- `ValidationError::into_location_and_error_kind`. -/
def ValidationError.into_location_and_error_kind (e : ValidationError) :
    SourceLocation × ValidationErrorKind :=
  (e.location, e.error_kind)

/-- `ValidationWarningKind`: the closed sum of non-fatal diagnostic
kinds. -/
inductive ValidationWarningKind where
  | MixedScriptString (s : String)
  | BidiCharsInString (s : String)
  | BidiCharsInIdentifier (s : String)
  | MixedScriptIdentifier (s : String)
  | ConfusableIdentifier (s : String)
  | TypeWarning (t : TypeWarningKind)
deriving DecidableEq, Repr

/-- Rendering of each `ValidationWarningKind` variant, translated from
the `#[error(...)]` attributes on the enum in the source. -/
def ValidationWarningKind.message : ValidationWarningKind → String
  | .MixedScriptString s =>
      "string `\"" ++ s ++ "\"` contains mixed scripts"
  | .BidiCharsInString s =>
      "string `\"" ++ s ++ "\"` contains BIDI control characters"
  | .BidiCharsInIdentifier s =>
      "identifier `" ++ s ++ "` contains BIDI control characters"
  | .MixedScriptIdentifier s =>
      "identifier `" ++ s ++ "` contains mixed scripts"
  | .ConfusableIdentifier s =>
      "identifier `" ++ s ++
        "` contains characters that fall outside of the General Security Profile for Identifiers"
  | .TypeWarning t => t.message

/-- `ValidationWarning`: a non-fatal diagnostic, pairing a source
location with a warning kind. -/
structure ValidationWarning where
  location : SourceLocation
  kind : ValidationWarningKind
deriving DecidableEq, Repr

/-- `ValidationWarning::with_policy_id`. -/
def ValidationWarning.with_policy_id (id : PolicyID)
    (source_info : Option SourceInfo) (kind : ValidationWarningKind) :
    ValidationWarning :=
  { location := SourceLocation.new id source_info, kind := kind }

/-- `ValidationWarning::to_kind_and_location`: despite its name, the
source returns `(self.location, self.kind)`, location first. -/
def ValidationWarning.to_kind_and_location (w : ValidationWarning) :
    SourceLocation × ValidationWarningKind :=
  (w.location, w.kind)

/-- The `Display` impl for `ValidationWarning`: renders the full
sentence with the policy id and the kind message. -/
def ValidationWarning.display (w : ValidationWarning) : String :=
  "validation warning on policy `" ++ w.location.policy_id.render ++ "`: " ++
    w.kind.message

/-- `ValidationResult`: the aggregate of all errors and warnings from
one validation run. -/
structure ValidationResult where
  validation_errors : List ValidationError
  validation_warnings : List ValidationWarning
deriving DecidableEq, Repr

/-- `ValidationResult::new`: snapshots the given ordered collections of
errors and warnings. -/
def ValidationResult.new (errors : List ValidationError)
    (warnings : List ValidationWarning) : ValidationResult :=
  { validation_errors := errors, validation_warnings := warnings }

/-- `ValidationResult::validation_passed`: true when there are no
errors. -/
def ValidationResult.validation_passed (r : ValidationResult) : Bool :=
  r.validation_errors.isEmpty

/-- `ValidationResult::into_errors_and_warnings`: consumes the result,
yielding the owned sequences of errors and warnings. -/
def ValidationResult.into_errors_and_warnings (r : ValidationResult) :
    List ValidationError × List ValidationWarning :=
  (r.validation_errors, r.validation_warnings)

/-- Helper: a string append is nonempty when its left part is nonempty. -/
theorem append_left_ne_empty (a b : String) (ha : a ≠ "") : a ++ b ≠ "" := by
  intro h
  apply ha
  apply String.ext
  have hd := congrArg String.data h
  rw [String.data_append] at hd
  have hnil : a.data ++ b.data = [] := by simpa using hd
  simpa using (List.append_eq_nil.mp hnil).1

/-- Claim C1: `validation_passed()` returns true iff the sequence of
errors is empty; warnings have no influence — a result built with zero
errors and any list of warnings passes. -/
theorem validation_passed_iff_no_errors (r : ValidationResult)
    (ws : List ValidationWarning) :
    (r.validation_passed = true ↔ r.validation_errors = []) ∧
    (ValidationResult.new [] ws).validation_passed = true := by
  refine ⟨?_, rfl⟩
  simp [ValidationResult.validation_passed, List.isEmpty_iff]

/-- Claim C2: `new(errors, warnings)` snapshots exactly the given
elements, and `validation_errors()` / `validation_warnings()` iterate
exactly those elements in insertion order. -/
theorem new_preserves_sequences (es : List ValidationError)
    (ws : List ValidationWarning) :
    (ValidationResult.new es ws).validation_errors = es ∧
    (ValidationResult.new es ws).validation_warnings = ws :=
  ⟨rfl, rfl⟩

/-- Claim C3: `into_errors_and_warnings()` yields the same sequences, in
the same order, as `validation_errors()` / `validation_warnings()`, and
the decomposition is lossless: rebuilding from the two decomposed
sequences and decomposing again yields an identical pair. -/
theorem into_errors_and_warnings_lossless (r : ValidationResult) :
    r.into_errors_and_warnings = (r.validation_errors, r.validation_warnings) ∧
    (ValidationResult.new r.into_errors_and_warnings.1
        r.into_errors_and_warnings.2).into_errors_and_warnings =
      r.into_errors_and_warnings :=
  ⟨rfl, rfl⟩

/-- Claim C4: `InvalidActionApplication` renders the base message, then
the principal hint iff `would_in_fix_principal`, then the resource hint
iff `would_in_fix_resource`, principal hint first when both are set. -/
theorem invalid_action_application_message (p r : Bool) :
    (ValidationErrorKind.invalid_action_application p r).message =
      match p, r with
      | false, false =>
        "unable to find an applicable action given the policy head constraints"
      | true, false =>
        "unable to find an applicable action given the policy head constraints. Note: Try replacing `==` with `in` in the principal clause"
      | false, true =>
        "unable to find an applicable action given the policy head constraints. Note: Try replacing `==` with `in` in the resource clause"
      | true, true =>
        "unable to find an applicable action given the policy head constraints. Note: Try replacing `==` with `in` in the principal clause. Note: Try replacing `==` with `in` in the resource clause" := by
  cases p <;> cases r <;> rfl

/-- Claim C5: `UnrecognizedEntityType` renders the backticked actual
type, with the suggestion clause exactly when the suggestion is `Some`;
in particular actual "Widget" with no suggestion renders exactly the
bare message. -/
theorem unrecognized_entity_type_message (a : String) (s : Option String) :
    (ValidationErrorKind.unrecognized_entity_type a s).message =
      "unrecognized entity type `" ++ a ++ "`" ++
        (match s with
          | some t => ", did you mean `" ++ t ++ "`?"
          | none => "") ∧
    (ValidationErrorKind.unrecognized_entity_type "Widget" none).message =
      "unrecognized entity type `Widget`" :=
  ⟨rfl, rfl⟩

/-- Claim C6 counterexample: `UnrecognizedActionId` does NOT render
`unrecognized action id ...` — the source message omits the word
`id` after `action`. -/
theorem unrecognized_action_id_message_cex :
    ¬ ((ValidationErrorKind.unrecognized_action_id "view" none).message =
        "unrecognized action id `view`") := by
  decide

/-- Claim C6 (amended): `UnrecognizedActionId` renders
`unrecognized action` followed by the backticked actual id, with the
suggestion clause exactly when the suggestion is `Some`. -/
theorem unrecognized_action_id_message (a : String) (s : Option String) :
    (ValidationErrorKind.unrecognized_action_id a s).message =
      "unrecognized action `" ++ a ++ "`" ++
        (match s with
          | some t => ", did you mean `" ++ t ++ "`?"
          | none => "") ∧
    (ValidationErrorKind.unrecognized_action_id "view" none).message =
      "unrecognized action `view`" :=
  ⟨rfl, rfl⟩

/-- Claim C7: a `ValidationWarning` displays as
`validation warning on policy` with the backticked policy id and the
kind message, and each warning kind renders its specified text. -/
theorem validation_warning_display (id : PolicyID) (si : Option SourceInfo)
    (k : ValidationWarningKind) (s : String) (t : TypeWarningKind) :
    (ValidationWarning.with_policy_id id si k).display =
      "validation warning on policy `" ++ id.render ++ "`: " ++ k.message ∧
    (ValidationWarningKind.MixedScriptString s).message =
      "string `\"" ++ s ++ "\"` contains mixed scripts" ∧
    (ValidationWarningKind.BidiCharsInString s).message =
      "string `\"" ++ s ++ "\"` contains BIDI control characters" ∧
    (ValidationWarningKind.BidiCharsInIdentifier s).message =
      "identifier `" ++ s ++ "` contains BIDI control characters" ∧
    (ValidationWarningKind.MixedScriptIdentifier s).message =
      "identifier `" ++ s ++ "` contains mixed scripts" ∧
    (ValidationWarningKind.ConfusableIdentifier s).message =
      "identifier `" ++ s ++
        "` contains characters that fall outside of the General Security Profile for Identifiers" ∧
    (ValidationWarningKind.TypeWarning t).message = t.message :=
  ⟨rfl, rfl, rfl, rfl, rfl, rfl, rfl⟩

/-- Claim C8: identity of diagnostics is structural — two
`ValidationError`s are equal iff their locations and kinds are equal,
and likewise for two `ValidationWarning`s. -/
theorem structural_identity_of_diagnostics (e1 e2 : ValidationError)
    (w1 w2 : ValidationWarning) :
    (e1 = e2 ↔ e1.location = e2.location ∧ e1.error_kind = e2.error_kind) ∧
    (w1 = w2 ↔ w1.location = w2.location ∧ w1.kind = w2.kind) := by
  refine ⟨?_, ?_⟩
  · cases e1
    cases e2
    simp
  · cases w1
    cases w2
    simp

/-- Claim C9: every constructible `ValidationErrorKind` renders a
non-empty message, under the hypothesis that an embedded type-error kind
(to which `TypeError` delegates verbatim) has a non-empty message. -/
theorem error_kind_message_nonempty (k : ValidationErrorKind)
    (h : ∀ t : TypeErrorKind, k = ValidationErrorKind.TypeError t →
      t.message ≠ "") :
    k.message ≠ "" := by
  cases k with
  | UnrecognizedEntityType d =>
    apply append_left_ne_empty
    apply append_left_ne_empty
    apply append_left_ne_empty
    decide
  | UnrecognizedActionId d =>
    apply append_left_ne_empty
    apply append_left_ne_empty
    apply append_left_ne_empty
    decide
  | InvalidActionApplication d =>
    apply append_left_ne_empty
    apply append_left_ne_empty
    decide
  | TypeError t => exact h t rfl
  | UnspecifiedEntity d =>
    apply append_left_ne_empty
    apply append_left_ne_empty
    decide

/-- Witness for C9: at the concrete kind `UnspecifiedEntity "x"`, the
hypothesis is discharged and the message is non-empty. -/
theorem error_kind_message_nonempty_witness :
    (ValidationErrorKind.unspecified_entity "x").message ≠ "" :=
  error_kind_message_nonempty (ValidationErrorKind.unspecified_entity "x")
    (fun _ ht => ValidationErrorKind.noConfusion ht)

/-- Claim C10: both decompositions return the location first — for an
error, `into_location_and_error_kind` returns the location/kind pair in
that order, and for a warning, `to_kind_and_location` (despite its name)
also returns the location first and the kind second. -/
theorem decomposition_location_first (id : PolicyID) (si : Option SourceInfo)
    (ek : ValidationErrorKind) (wk : ValidationWarningKind) :
    (ValidationError.with_policy_id id si ek).into_location_and_error_kind =
      (SourceLocation.new id si, ek) ∧
    (ValidationWarning.with_policy_id id si wk).to_kind_and_location =
      (SourceLocation.new id si, wk) :=
  ⟨rfl, rfl⟩

end CedarValidation
